import Mathlib

/-!
Verification of MiniCarPy: a CAN-bus car controller with two program
variants, a keyboard-driven controller (minicar.py) and a web-facing
controller (web_control.py), plus the serial-bridge frame codec described
by the design document.

The Python code is shallowly embedded: pure computations become Lean
functions, mutable module/object state becomes explicit state records with
step functions, and fallible transport operations take an explicit Boolean
outcome for the external send/receive result.
-/

namespace FrameCodec

/-- Modelled from the spec: the serial-bridge FrameCodec is not among the
repository's source files (the two Python files talk to a native CAN bus),
so the 20-byte frame layout and checksum are taken from the design
document.  The checksum over a byte list: (sum + 1) mod 256. -/
def checksum (bs : List Nat) : Nat := (bs.sum + 1) % 256

/-- Modelled from the spec: the first 19 bytes of an encoded frame.
Layout: byte0=0xAA, byte1=0x55 sync header; byte3 / byte5 the CAN id high
and low bytes; byte9 the data-length code; bytes10..17 the payload window,
zero-padded; the remaining bytes reserved (values as in the design
document's concrete example). -/
def encBody (can_id : Nat) (payload : List Nat) : List Nat :=
  [0xAA, 0x55, 1, can_id / 256 % 256, 1, can_id % 256, 1, 0, 0, payload.length]
    ++ payload ++ List.replicate (8 - payload.length) 0 ++ [0]

/-- Modelled from the spec: `encode(can_id, payload)` produces the 19-byte
body followed by the checksum over that body as byte19. -/
def encode (can_id : Nat) (payload : List Nat) : List Nat :=
  encBody can_id payload ++ [checksum (encBody can_id payload)]

/-- Modelled from the spec: decode's error taxonomy. -/
inductive FrameError
  | InvalidHeader
  | ChecksumMismatch
deriving DecidableEq

/-- Modelled from the spec: `decode` on a 20-byte frame checks the sync
header, recomputes the checksum over bytes 0..18 and compares with byte19,
clamps the data-length code to at most 8, and returns the reconstructed
CAN id together with the payload slice.  Input that is not 20 bytes long
cannot be a frame and is rejected as an invalid header. -/
def decode (frame : List Nat) : Except FrameError (Nat × List Nat) :=
  match frame with
  | [b0, b1, b2, b3, b4, b5, b6, b7, b8, b9, d0, d1, d2, d3, d4, d5, d6, d7, b18, ck] =>
    if b0 = 0xAA ∧ b1 = 0x55 then
      if ck = checksum [b0, b1, b2, b3, b4, b5, b6, b7, b8, b9,
                        d0, d1, d2, d3, d4, d5, d6, d7, b18] then
        Except.ok (b3 * 256 + b5, List.take (min b9 8) [d0, d1, d2, d3, d4, d5, d6, d7])
      else Except.error FrameError.ChecksumMismatch
    else Except.error FrameError.InvalidHeader
  | _ => Except.error FrameError.InvalidHeader

end FrameCodec

/-- Claim C1: for every can_id ≤ 0x7FF and every payload of length at most
8 bytes, decoding the frame produced by FrameCodec.encode(can_id, payload)
succeeds and returns exactly the pair (can_id, payload). -/
theorem FrameCodec.encode_decode_roundtrip (can_id : Nat) (payload : List Nat)
    (hid : can_id ≤ 0x7FF) (hlen : payload.length ≤ 8) :
    FrameCodec.decode (FrameCodec.encode can_id payload) = Except.ok (can_id, payload) := by
  rcases payload with _ | ⟨a, _ | ⟨b, _ | ⟨c, _ | ⟨d, _ | ⟨e, _ | ⟨f, _ | ⟨g, _ | ⟨h8, _ | ⟨i, rest⟩⟩⟩⟩⟩⟩⟩⟩⟩ <;>
    first
      | (simp only [List.length] at hlen; omega)
      | (simp [FrameCodec.encode, FrameCodec.encBody, FrameCodec.decode, List.replicate];
         omega)

/-- Witness for C1: the round-trip at can_id 0x100 with payload [3, 50]. -/
theorem FrameCodec.encode_decode_roundtrip_witness :
    FrameCodec.decode (FrameCodec.encode 0x100 [3, 50]) = Except.ok (0x100, [3, 50]) :=
  FrameCodec.encode_decode_roundtrip 0x100 [3, 50] (by decide) (by decide)

namespace Minicar

/-- Motor command codes from minicar.py's MotorCommand IntEnum. -/
inductive MotorCommand
  | CMD_STOP
  | CMD_FORWARD
  | CMD_BACKWARD
  | CMD_TURN_LEFT
  | CMD_TURN_RIGHT
deriving DecidableEq

/-- The numeric value of each MotorCommand member (0x00 .. 0x04). -/
def MotorCommand.code : MotorCommand → Int
  | .CMD_STOP => 0x00
  | .CMD_FORWARD => 0x01
  | .CMD_BACKWARD => 0x02
  | .CMD_TURN_LEFT => 0x03
  | .CMD_TURN_RIGHT => 0x04

/-- CAN message ids of CANCarController. -/
def CAN_ID_MOTOR_CMD : Nat := 0x100

def CAN_ID_EMERGENCY_STOP : Nat := 0x101

def CAN_ID_CONFIG : Nat := 0x102

/-- The mutable fields of CANCarController set in its constructor. -/
structure CarState where
  current_speed : Int
  running : Bool
  last_command : MotorCommand
deriving DecidableEq

/-- CANCarController.__init__ after a successful bus open:
current_speed = 50, running = True, last_command = CMD_STOP. -/
def initState : CarState := { current_speed := 50, running := true, last_command := .CMD_STOP }

/-- The 8-byte motor-command payload [command, speed, 0, 0, 0, 0, 0, 0]. -/
def motorData (cmd : MotorCommand) (speed : Int) : List Int :=
  [cmd.code, speed, 0, 0, 0, 0, 0, 0]

/-- CANCarController.send_motor_command: resolve the optional speed against
current_speed, clamp it to [0, 100], build the payload, and attempt the bus
send; `sendOk` is the outcome of the external bus.send call (false = the
call raised).  Returns the new state and the payload of the attempted
message; last_command is assigned only after a send that did not raise. -/
def sendMotorCommand (s : CarState) (cmd : MotorCommand) (speed? : Option Int)
    (sendOk : Bool) : CarState × List Int :=
  let speed := max 0 (min 100 (speed?.getD s.current_speed))
  ((if sendOk then { s with last_command := cmd } else s), motorData cmd speed)

/-- CANCarController.adjust_speed: clamp current_speed + delta into
[0, 100]; if the last command is not CMD_STOP, resend it at the new
speed. -/
def adjustSpeed (s : CarState) (delta : Int) (sendOk : Bool) : CarState :=
  let s1 := { s with current_speed := max 0 (min 100 (s.current_speed + delta)) }
  if s1.last_command = MotorCommand.CMD_STOP then s1
  else (sendMotorCommand s1 s1.last_command none sendOk).1

/-- Observable transport actions of the controller. -/
inductive CanAction
  | sendFrame (can_id : Nat) (data : List Int)
  | shutdownBus
deriving DecidableEq

/-- CANCarController.cleanup: send a final CMD_STOP (at the current speed),
then shut the bus down. -/
def cleanup (s : CarState) (sendOk : Bool) : CarState × List CanAction :=
  let r := sendMotorCommand s .CMD_STOP none sendOk
  (r.1, [CanAction.sendFrame CAN_ID_MOTOR_CMD r.2, CanAction.shutdownBus])

/-- The ways CANCarController.run's loop can end: the Q key (running set to
False after a stop command), a KeyboardInterrupt, or any other exception
reaching the try block. -/
inductive ExitCause
  | quitKey
  | keyboardInterrupt
  | exception

/-- The transport actions of CANCarController.run from the moment the loop
ends, for each exit cause: the Q branch itself sends a stop first; the
finally block then runs cleanup on every path. -/
def runExitActions (s : CarState) (cause : ExitCause) (ok1 ok2 : Bool) : List CanAction :=
  let body : CarState × List CanAction :=
    match cause with
    | .quitKey =>
      let r := sendMotorCommand s .CMD_STOP none ok1
      ({ r.1 with running := false }, [CanAction.sendFrame CAN_ID_MOTOR_CMD r.2])
    | .keyboardInterrupt => (s, [])
    | .exception => (s, [])
  body.2 ++ (cleanup body.1 ok2).2

end Minicar

/-- What a program variant does after attempting to open the CAN bus at
startup. -/
inductive StartupOutcome
  | exitError
  | runLoop
  | runLoopDemo
deriving DecidableEq

/-- Whether a startup outcome proceeds into the variant's control loop. -/
def entersControlLoop : StartupOutcome → Bool
  | .exitError => false
  | .runLoop => true
  | .runLoopDemo => true

namespace Minicar

/-- CANCarController.__init__: a failed can.interface.Bus open is caught
and answered with sys.exit(1); on success main proceeds into run(). -/
def startup (busOk : Bool) : StartupOutcome :=
  if busOk then .runLoop else .exitError

end Minicar

namespace WebControl

/-- CAN ids of web_control.py.  CANID_RX_HEARTBEAT (0x103) is the id the
server transmits its heartbeat on; CANID_TX_HEARTBEAT (0x104) is the id it
expects from the vehicle. -/
def CANID_MOTOR_CMD : Nat := 0x100

def CANID_RX_HEARTBEAT : Nat := 0x103

def CANID_TX_HEARTBEAT : Nat := 0x104

/-- Command codes of web_control.py. -/
def CMD_STOP : Int := 0

def CMD_FORWARD : Int := 3

def CMD_BACKWARD : Int := 4

def CMD_TURN_LEFT : Int := 1

def CMD_TURN_RIGHT : Int := 2

/-- The telemetry_data dictionary. -/
structure TelemetryData where
  connected : Bool
  last_command : String
  heartbeat_ok : Bool
  messages_received : Nat
deriving DecidableEq

/-- telemetry_data's initial value. -/
def initialTelemetry : TelemetryData :=
  { connected := false, last_command := "STOP", heartbeat_ok := false, messages_received := 0 }

/-- The module-level mutable state touched by heartbeat_thread: the two
heartbeat timestamps and the telemetry record.  Timestamps are modelled as
rationals (time.time() values), 0 meaning never. -/
structure WebState where
  last_rx_heartbeat : ℚ
  last_tx_heartbeat : ℚ
  telemetry : TelemetryData
deriving DecidableEq

/-- The state at module load: both timestamps 0, telemetry initial. -/
def initialWebState : WebState :=
  { last_rx_heartbeat := 0, last_tx_heartbeat := 0, telemetry := initialTelemetry }

/-- The heartbeat-send step at the top of heartbeat_thread's loop body: if
now - last_tx_heartbeat > 1 second, send a zero-payload frame on
CANID_RX_HEARTBEAT and set last_tx_heartbeat to now; the emitted frame (if
any) is returned alongside the new state. -/
def heartbeatTick (s : WebState) (now : ℚ) : WebState × Option (Nat × List Nat) :=
  if now - s.last_tx_heartbeat > 1 then
    ({ s with last_tx_heartbeat := now }, some (CANID_RX_HEARTBEAT, List.replicate 8 0))
  else (s, none)

/-- The receive step of heartbeat_thread for one message read off the bus:
messages_received is incremented for every message; if the message's id is
CANID_TX_HEARTBEAT, last_rx_heartbeat is set to now and heartbeat_ok to
True. -/
def receiveStep (s : WebState) (can_id : Nat) (now : ℚ) : WebState :=
  let s1 := { s with telemetry :=
    { s.telemetry with messages_received := s.telemetry.messages_received + 1 } }
  if can_id = CANID_TX_HEARTBEAT then
    { s1 with last_rx_heartbeat := now,
              telemetry := { s1.telemetry with heartbeat_ok := true } }
  else s1

/-- The timeout check at the bottom of heartbeat_thread's loop body: if
last_rx_heartbeat > 0 and now - last_rx_heartbeat > 5 seconds, set
heartbeat_ok to False.  Nothing else changes. -/
def checkTimeout (s : WebState) (now : ℚ) : WebState :=
  if s.last_rx_heartbeat > 0 ∧ now - s.last_rx_heartbeat > 5 then
    { s with telemetry := { s.telemetry with heartbeat_ok := false } }
  else s

/-- send_command's cmd_map: the web command names and their codes. -/
def cmd_map (command : String) : Option Int :=
  if command = "forward" then some CMD_FORWARD
  else if command = "backward" then some CMD_BACKWARD
  else if command = "left" then some CMD_TURN_LEFT
  else if command = "right" then some CMD_TURN_RIGHT
  else if command = "stop" then some CMD_STOP
  else none

/-- The /command handler's encoding step: an unknown command is rejected
(none); otherwise the CAN payload is [code, speed_value, 0, 0, 0, 0, 0, 0]
with speed_value forced to 0 for "stop" and taken verbatim from the
request otherwise.  Returns the (can_id, payload) of the frame handed to
send_can_frame. -/
def send_command (command : String) (speed : Int) : Option (Nat × List Int) :=
  match cmd_map command with
  | none => none
  | some cv =>
    some (CANID_MOTOR_CMD, [cv, if command = "stop" then 0 else speed, 0, 0, 0, 0, 0, 0])

/-- The web variant's direction-to-code table, on the shared direction
enumeration: the byte0 value send_command produces for each direction
name. -/
def webCode : Minicar.MotorCommand → Int
  | .CMD_STOP => CMD_STOP
  | .CMD_FORWARD => CMD_FORWARD
  | .CMD_BACKWARD => CMD_BACKWARD
  | .CMD_TURN_LEFT => CMD_TURN_LEFT
  | .CMD_TURN_RIGHT => CMD_TURN_RIGHT

/-- web_control.py's __main__: a failed bus open makes setup_can_bus
return None, which is answered with a warning; the heartbeat thread and
the Flask app are started either way (demo mode when the bus is absent). -/
def startup (busOk : Bool) : StartupOutcome :=
  if busOk then .runLoop else .runLoopDemo

end WebControl

/-- Claim C2 counterexample: minicar.py's send_motor_command with CMD_STOP
and supplied speed 80 places 80 (not 0) in payload byte1, and
web_control.py's send_command with "forward" and speed 150 places 150 (not
the clamped 100) in payload byte1. -/
theorem motor_payload_speed_bytes_cex :
    ((Minicar.sendMotorCommand Minicar.initState .CMD_STOP (some 80) true).2.getD 1 0 = 80)
  ∧ (((80 : Int) = 0) = False)
  ∧ (WebControl.send_command "forward" 150 = some (0x100, [3, 150, 0, 0, 0, 0, 0, 0]))
  ∧ (((150 : Int) = max 0 (min 100 150)) = False) :=
  ⟨by decide, eq_false (by decide), by decide, eq_false (by decide)⟩

/-- Claim C2 (amended): in the keyboard variant, payload byte1 always
equals the supplied (or current) speed clamped into [0, 100], for every
command including CMD_STOP; in the web variant, byte1 is 0 for "stop" and
is the supplied speed, unclamped, for the other commands. -/
theorem motor_payload_speed_bytes :
    (∀ (s : Minicar.CarState) (cmd : Minicar.MotorCommand) (sp : Option Int) (ok : Bool),
        (Minicar.sendMotorCommand s cmd sp ok).2.getD 1 0
          = max 0 (min 100 (sp.getD s.current_speed)))
  ∧ (∀ speed : Int,
        WebControl.send_command "stop" speed
          = some (WebControl.CANID_MOTOR_CMD, [WebControl.CMD_STOP, 0, 0, 0, 0, 0, 0, 0]))
  ∧ (∀ speed : Int,
        WebControl.send_command "forward" speed
          = some (WebControl.CANID_MOTOR_CMD, [WebControl.CMD_FORWARD, speed, 0, 0, 0, 0, 0, 0]))
  ∧ (∀ speed : Int,
        WebControl.send_command "backward" speed
          = some (WebControl.CANID_MOTOR_CMD, [WebControl.CMD_BACKWARD, speed, 0, 0, 0, 0, 0, 0]))
  ∧ (∀ speed : Int,
        WebControl.send_command "left" speed
          = some (WebControl.CANID_MOTOR_CMD, [WebControl.CMD_TURN_LEFT, speed, 0, 0, 0, 0, 0, 0]))
  ∧ (∀ speed : Int,
        WebControl.send_command "right" speed
          = some (WebControl.CANID_MOTOR_CMD, [WebControl.CMD_TURN_RIGHT, speed, 0, 0, 0, 0, 0, 0])) :=
  ⟨fun _ _ _ _ => rfl, fun _ => rfl, fun _ => rfl, fun _ => rfl, fun _ => rfl, fun _ => rfl⟩

/-- Claim C8: in the keyboard variant, a bus.send that raises leaves the
controller state (last_command included) unchanged, while a successful send
sets last_command to the sent command. -/
theorem last_command_updated_only_on_success (s : Minicar.CarState)
    (cmd : Minicar.MotorCommand) (sp : Option Int) :
    ((Minicar.sendMotorCommand s cmd sp false).1 = s)
  ∧ ((Minicar.sendMotorCommand s cmd sp true).1.last_command = cmd) :=
  ⟨rfl, rfl⟩

/-- Failed or successful, a send_motor_command call never changes
current_speed. -/
theorem Minicar.sendMotorCommand_current_speed (s : Minicar.CarState)
    (cmd : Minicar.MotorCommand) (sp : Option Int) (ok : Bool) :
    ((Minicar.sendMotorCommand s cmd sp ok).1).current_speed = s.current_speed := by
  cases ok <;> rfl

/-- adjust_speed leaves current_speed at the clamp of the old value plus
delta, whether or not it resends the last command. -/
theorem Minicar.adjustSpeed_current_speed (s : Minicar.CarState) (delta : Int) (ok : Bool) :
    (Minicar.adjustSpeed s delta ok).current_speed
      = max 0 (min 100 (s.current_speed + delta)) := by
  simp only [Minicar.adjustSpeed]
  split
  · rfl
  · rw [Minicar.sendMotorCommand_current_speed]

/-- Claim C9: starting from the constructor's current_speed of 50, any
sequence of adjust_speed calls (each with an arbitrary integer delta and an
arbitrary outcome for the resend) keeps current_speed within [0, 100]. -/
theorem current_speed_bounded (calls : List (Int × Bool)) :
    0 ≤ (calls.foldl (fun s p => Minicar.adjustSpeed s p.1 p.2) Minicar.initState).current_speed
  ∧ (calls.foldl (fun s p => Minicar.adjustSpeed s p.1 p.2) Minicar.initState).current_speed
      ≤ 100 := by
  have aux : ∀ (l : List (Int × Bool)) (s : Minicar.CarState),
      0 ≤ s.current_speed → s.current_speed ≤ 100 →
      0 ≤ (l.foldl (fun s p => Minicar.adjustSpeed s p.1 p.2) s).current_speed ∧
        (l.foldl (fun s p => Minicar.adjustSpeed s p.1 p.2) s).current_speed ≤ 100 := by
    intro l
    induction l with
    | nil => exact fun s h0 h1 => ⟨h0, h1⟩
    | cons p t ih =>
      intro s h0 h1
      simp only [List.foldl_cons]
      exact ih _ (by rw [Minicar.adjustSpeed_current_speed]; omega)
        (by rw [Minicar.adjustSpeed_current_speed]; omega)
  exact aux calls Minicar.initState (by decide) (by decide)

/-- Claim C3 counterexample: with last_rx_heartbeat = 2 and now = 8 the
timeout fires (heartbeat_ok becomes false) but last_rx_heartbeat stays 2;
it is not reset to 0. -/
theorem check_timeout_no_reset_cex :
    ((WebControl.checkTimeout
        { WebControl.initialWebState with last_rx_heartbeat := 2 } 8).telemetry.heartbeat_ok
      = false)
  ∧ ((WebControl.checkTimeout
        { WebControl.initialWebState with last_rx_heartbeat := 2 } 8).last_rx_heartbeat = 2)
  ∧ (((2 : ℚ) = 0) = False) :=
  ⟨by norm_num [WebControl.checkTimeout], by norm_num [WebControl.checkTimeout],
   eq_false (by norm_num)⟩

/-- Claim C3 (amended): when last_rx_heartbeat > 0 and more than 5 seconds
have passed since it, the timeout check sets heartbeat_ok to false, but it
leaves last_rx_heartbeat unchanged (no reset to 0), so the assignment
repeats on every subsequent tick of the silence until a fresh receive. -/
theorem check_timeout_sets_unhealthy (s : WebControl.WebState) (now : ℚ)
    (h1 : s.last_rx_heartbeat > 0) (h2 : now - s.last_rx_heartbeat > 5) :
    ((WebControl.checkTimeout s now).telemetry.heartbeat_ok = false)
  ∧ ((WebControl.checkTimeout s now).last_rx_heartbeat = s.last_rx_heartbeat) := by
  simp [WebControl.checkTimeout, h1, h2]

/-- Witness for C3's theorem: the timeout check at last_rx_heartbeat = 3
and now = 9. -/
theorem check_timeout_sets_unhealthy_witness :
    ((WebControl.checkTimeout
        { WebControl.initialWebState with last_rx_heartbeat := 3 } 9).telemetry.heartbeat_ok
      = false)
  ∧ ((WebControl.checkTimeout
        { WebControl.initialWebState with last_rx_heartbeat := 3 } 9).last_rx_heartbeat = 3) :=
  check_timeout_sets_unhealthy { WebControl.initialWebState with last_rx_heartbeat := 3 } 9
    (by norm_num) (by norm_num)

/-- Claim C4 counterexample: the Forward code is 1 in minicar.py but 3 in
web_control.py. -/
theorem command_codes_differ_cex :
    (Minicar.MotorCommand.code .CMD_FORWARD = 1)
  ∧ (WebControl.webCode .CMD_FORWARD = 3)
  ∧ ((Minicar.MotorCommand.code .CMD_FORWARD = WebControl.webCode .CMD_FORWARD) = False) :=
  ⟨rfl, rfl, eq_false (by decide)⟩

/-- Claim C4 (amended): the two variants' direction-to-code tables agree
on a direction exactly when that direction is Stop; on Forward, Backward,
TurnLeft and TurnRight they disagree. -/
theorem command_codes_agree_only_on_stop (d : Minicar.MotorCommand) :
    Minicar.MotorCommand.code d = WebControl.webCode d ↔ d = Minicar.MotorCommand.CMD_STOP := by
  cases d <;> decide

/-- Claim C5 counterexample: the web variant with a failed bus open still
proceeds into its control loop (demo mode) instead of exiting. -/
theorem web_startup_failure_cex :
    (WebControl.startup false = StartupOutcome.runLoopDemo)
  ∧ (entersControlLoop (WebControl.startup false) = true) :=
  ⟨rfl, rfl⟩

/-- Claim C5 (amended): in the keyboard variant a failed CAN bus open is
fatal — the process exits and enters the control loop exactly when the
open succeeded; in the web variant the open failure is non-fatal and the
process always proceeds into the control loop, in demo mode when the bus
is absent. -/
theorem startup_failure_behavior :
    (∀ busOk : Bool, entersControlLoop (Minicar.startup busOk) = busOk)
  ∧ (∀ busOk : Bool, entersControlLoop (WebControl.startup busOk) = true)
  ∧ (Minicar.startup false = StartupOutcome.exitError) :=
  ⟨fun b => by cases b <;> rfl, fun b => by cases b <;> rfl, rfl⟩

/-- Claim C6 counterexample: with last_tx_heartbeat = 0 at now = 1 the
elapsed time equals the interval (now - last_tx ≥ 1) yet no heartbeat is
emitted and the state is unchanged: the code requires strictly more than
one second. -/
theorem heartbeat_tick_boundary_cex :
    ((WebControl.heartbeatTick WebControl.initialWebState 1).2 = none)
  ∧ ((WebControl.heartbeatTick WebControl.initialWebState 1).1 = WebControl.initialWebState)
  ∧ ((1 : ℚ) - WebControl.initialWebState.last_tx_heartbeat ≥ 1) :=
  ⟨by norm_num [WebControl.heartbeatTick, WebControl.initialWebState],
   by norm_num [WebControl.heartbeatTick, WebControl.initialWebState],
   by norm_num [WebControl.initialWebState, WebControl.initialTelemetry]⟩

/-- Claim C6 (amended): on every tick, if now - last_tx_heartbeat is
strictly greater than the 1-second interval, a heartbeat frame with
can_id 0x103 and an all-zero payload is emitted and last_tx_heartbeat is
set to now, independently of the health state; otherwise (including when
the elapsed time equals the interval exactly) no frame is emitted and the
state is unchanged. -/
theorem heartbeat_tick_behavior (s : WebControl.WebState) (now : ℚ) :
    (WebControl.CANID_RX_HEARTBEAT = 0x103)
  ∧ (now - s.last_tx_heartbeat > 1 →
      WebControl.heartbeatTick s now
        = ({ s with last_tx_heartbeat := now },
           some (WebControl.CANID_RX_HEARTBEAT, List.replicate 8 0)))
  ∧ (¬ (now - s.last_tx_heartbeat > 1) →
      WebControl.heartbeatTick s now = (s, none)) := by
  refine ⟨rfl, fun h => ?_, fun h => ?_⟩ <;> simp [WebControl.heartbeatTick, h]

/-- Claim C7: on every exit of the keyboard variant's run loop — the Q
key, a KeyboardInterrupt, or another exception — and whatever the outcome
of the bus sends, the trailing transport actions are a final CMD_STOP
motor frame followed by the bus shutdown. -/
theorem run_exit_sends_stop_then_shutdown (s : Minicar.CarState) (cause : Minicar.ExitCause)
    (ok1 ok2 : Bool) :
    ∃ pre speed,
      Minicar.runExitActions s cause ok1 ok2
        = pre ++ [Minicar.CanAction.sendFrame Minicar.CAN_ID_MOTOR_CMD
                    (Minicar.motorData .CMD_STOP speed),
                  Minicar.CanAction.shutdownBus] := by
  cases cause with
  | quitKey =>
    cases ok1 <;>
      exact ⟨[Minicar.CanAction.sendFrame Minicar.CAN_ID_MOTOR_CMD
                (Minicar.motorData .CMD_STOP (max 0 (min 100 s.current_speed)))],
             max 0 (min 100 s.current_speed), rfl⟩
  | keyboardInterrupt => exact ⟨[], max 0 (min 100 s.current_speed), rfl⟩
  | exception => exact ⟨[], max 0 (min 100 s.current_speed), rfl⟩

/-- Claim C10: every received frame increments messages_received by
exactly 1 whatever its id; heartbeat_ok is set and last_rx_heartbeat
refreshed exactly for frames whose id is CANID_TX_HEARTBEAT = 0x104, and
both are untouched for every other id. -/
theorem receive_step_counts_and_heartbeat (s : WebControl.WebState) (can_id : Nat) (now : ℚ) :
    (WebControl.CANID_TX_HEARTBEAT = 0x104)
  ∧ ((WebControl.receiveStep s can_id now).telemetry.messages_received
      = s.telemetry.messages_received + 1)
  ∧ (can_id = 0x104 →
      (WebControl.receiveStep s can_id now).telemetry.heartbeat_ok = true
    ∧ (WebControl.receiveStep s can_id now).last_rx_heartbeat = now)
  ∧ (can_id ≠ 0x104 →
      (WebControl.receiveStep s can_id now).telemetry.heartbeat_ok = s.telemetry.heartbeat_ok
    ∧ (WebControl.receiveStep s can_id now).last_rx_heartbeat = s.last_rx_heartbeat) := by
  by_cases h : can_id = 0x104 <;>
    simp [WebControl.receiveStep, WebControl.CANID_TX_HEARTBEAT, h]
